import Mathlib

/-!
# Verification of the RECRUITIQ batch-pipeline core

Shallow embedding of the resumable multi-stage batch pipeline of
`src/main.py` (helpers `save_progress`, `load_progress`, `load_json_file`,
`append_to_json`, `log_failed_url`, the AI-parsing wrappers
`extract_profile_data` and `match_profile_to_jd`, and the main per-URL
loop), of the threshold constants of `src/config.py`, and of the URL
collection of `src/linkedin_searcher.py`.

Modelling conventions:
* Python floats that the pipeline only creates from decimal literals and
  compares (`min_experience`, `match_score`, `total_years_experience`)
  are embedded as rationals `ℚ`.
* A Python call that either returns a value or lets an exception escape
  is embedded as `PyResult`.
* External collaborators (Selenium, the LLM crew, `json.loads`,
  `float(...)` on strings) are oracle parameters: the embedding takes
  their outcome as an input and models exactly the control flow the
  source performs on that outcome.
* Timestamp stamping (`scraped_at`, `evaluated_at`) is omitted: the
  fields are opaque strings never read by the pipeline.
-/

namespace RecruitIQ

/-- Outcome of a Python call: a returned value, or an escaped exception
carrying its message. -/
inductive PyResult (α : Type) where
  | ok (val : α)
  | raised (msg : String)
deriving Repr, DecidableEq

/-- A Python JSON scalar/shallow value, as far as the pipeline inspects
one (numbers, strings, booleans, string lists, null). -/
inductive PyVal where
  | num (q : ℚ)
  | str (s : String)
  | boolv (b : Bool)
  | listv (elems : List String)
  | nullv
deriving Repr, DecidableEq

/-- `config.py`: `MATCH_THRESHOLD = 7` — minimum score (out of 10) to be
considered a match. -/
def MATCH_THRESHOLD : ℚ := 7

/-- The list comprehension `[url for url in all_urls if url not in
completed_urls]` used by `save_progress` (main.py:54) and by the main
loop (main.py:464). -/
def filterNotIn (completed_urls all_urls : List String) : List String :=
  all_urls.filter (fun url => !completed_urls.contains url)

/-- The progress snapshot object persisted by `save_progress`
(main.py:45-57). -/
structure Snapshot where
  search_term : String
  job_description : String
  profile_limit : Nat
  min_experience : ℚ
  total_urls : Nat
  completed_urls : List String
  remaining_urls : List String
deriving Repr, DecidableEq

/-- `save_progress` (main.py:45-57): builds the snapshot written to
`PROGRESS_JSON` (full overwrite). -/
def save_progress (search_term job_description : String) (profile_limit : Nat)
    (min_experience : ℚ) (all_urls completed_urls : List String) : Snapshot :=
  { search_term := search_term
    job_description := job_description
    profile_limit := profile_limit
    min_experience := min_experience
    total_urls := all_urls.length
    completed_urls := completed_urls
    remaining_urls := filterNotIn completed_urls all_urls }

/-- State of the progress file on disk: missing, or present with either
a parseable snapshot or corrupt (unparseable JSON) content. -/
inductive FileState (α : Type) where
  | absent
  | present (parsed : Option α)
deriving Repr, DecidableEq

/-- `load_progress` (main.py:37-42): `if os.path.exists: return
json.load(f); return None`.  `json.load` on a corrupt file raises
`JSONDecodeError`; there is no `try/except` in this function, so that
exception escapes to the caller. -/
def load_progress (file : FileState Snapshot) : PyResult (Option Snapshot) :=
  match file with
  | .absent => .ok none
  | .present (some s) => .ok (some s)
  | .present none => .raised "json.decoder.JSONDecodeError"

/-- `load_json_file` (main.py:60-65): existing JSON array if the file
exists, else `[]`.  The backing store is `none` when the file is absent;
files written by `save_to_json` always hold a valid array. -/
def load_json_file {α : Type} (file : Option (List α)) : List α :=
  match file with
  | none => []
  | some records => records

/-- `save_to_json` (main.py:68-71): full overwrite of the file with the
given array. -/
def save_to_json {α : Type} (data : List α) : Option (List α) :=
  some data

/-- `append_to_json` (main.py:74-78): read the existing array (empty if
absent), append, write the whole array back. -/
def append_to_json {α : Type} (file : Option (List α)) (new_data : α) :
    Option (List α) :=
  save_to_json (load_json_file file ++ [new_data])

/-- The spec's `readAll()` on an append log: the ordered contents of the
backing store. -/
def readAll {α : Type} (file : Option (List α)) : List α :=
  load_json_file file

/-- A sequence of `append_to_json` calls, in call order. -/
def appendN {α : Type} (file : Option (List α)) (records : List α) :
    Option (List α) :=
  records.foldl append_to_json file

/-- `log_failed_url` (main.py:81-84): appends the line
`f"{url} | Error: {error}"` to the failure log. -/
def log_failed_url (log : List String) (url error : String) : List String :=
  log ++ [url ++ " | Error: " ++ error]

/-- Python's `float(x)` coercion applied to a JSON value
(main.py:272): succeeds on numbers and booleans, delegates numeric
string parsing to the stdlib oracle `strFloat`, raises (here: `none`)
on lists and null. -/
def pyFloat (strFloat : String → Option ℚ) : PyVal → Option ℚ
  | .num q => some q
  | .boolv b => some (if b then 1 else 0)
  | .str s => strFloat s
  | .listv _ => none
  | .nullv => none

/-- Result of `extract_profile_data`: the parsed profile JSON object
(its raw fields), with the `total_years_experience` value after the
ensure-numeric normalisation of main.py:267-274, and the `raw_output`
field set only by the degraded branch of main.py:277-281. -/
structure ExtractResult where
  fields : List (String × PyVal)
  total_years_experience : ℚ
  raw_output : Option String
deriving Repr, DecidableEq

/-- `extract_profile_data` (main.py:186-281), from the `crew.kickoff()`
call on.  `kickoff` is the outcome of the LLM call (main.py:257), which
sits OUTSIDE the `try`: if it raises, the exception escapes this
function.  `jsonLoads` is the stdlib oracle for the brace-slicing plus
`json.loads` of main.py:261-265 (`none` = `json.loads` raised); the
`try/except` of main.py:260-281 turns that failure into the degraded
record `{"raw_output": str(result), "total_years_experience": 0}`.
On success, main.py:267-274 forces `total_years_experience` to a
number: missing key or failed `float()` coercion become `0`. -/
def extract_profile_data (strFloat : String → Option ℚ)
    (jsonLoads : String → Option (List (String × PyVal)))
    (kickoff : PyResult String) : PyResult ExtractResult :=
  match kickoff with
  | .raised e => .raised e
  | .ok result_str =>
    match jsonLoads result_str with
    | none =>
        .ok { fields := [], total_years_experience := 0,
              raw_output := some result_str }
    | some obj =>
        match obj.lookup "total_years_experience" with
        | none =>
            .ok { fields := obj, total_years_experience := 0,
                  raw_output := none }
        | some v =>
            match pyFloat strFloat v with
            | some q =>
                .ok { fields := obj, total_years_experience := q,
                      raw_output := none }
            | none =>
                .ok { fields := obj, total_years_experience := 0,
                      raw_output := none }

/-- The match-analysis JSON parsed from the matcher's output, with the
`.get(..., default)` defaults of main.py:539-551 already applied
(`match_score` defaults to 0, skill lists to `[]`, texts to `""`). -/
structure MatchResult where
  match_score : ℚ
  matching_skills : List String
  missing_skills : List String
  experience_relevance : String
  overall_assessment : String
deriving Repr, DecidableEq

/-- `match_profile_to_jd` (main.py:284-351), from the `crew.kickoff()`
call on.  As in extraction, `kickoff` (main.py:334) sits OUTSIDE the
`try`, so its exception escapes.  `parseMatch` is the stdlib oracle for
the brace-slicing plus `json.loads` of main.py:338-342; its failure is
turned by the `except` of main.py:344-351 into the degraded record
`{match_score: 0, matching_skills: [], missing_skills: [],
experience_relevance: "Error parsing match result",
overall_assessment: str(result)}`. -/
def match_profile_to_jd (parseMatch : String → Option MatchResult)
    (kickoff : PyResult String) : PyResult MatchResult :=
  match kickoff with
  | .raised e => .raised e
  | .ok result_str =>
    match parseMatch result_str with
    | some match_json => .ok match_json
    | none =>
        .ok { match_score := 0
              matching_skills := []
              missing_skills := []
              experience_relevance := "Error parsing match result"
              overall_assessment := result_str }

/-! ## The main per-URL loop (main.py:475-580) -/

/-- The run parameters fixed before the loop (fresh input or resumed
snapshot). -/
structure Params where
  search_term : String
  job_description : String
  profile_limit : Nat
  min_experience : ℚ
deriving Repr, DecidableEq

/-- The profile record flowing through the loop: the extracted data
with the fields the pipeline itself reads (`name`,
`total_years_experience`) and the `url` stamped on at main.py:503. -/
structure Profile where
  name : String
  total_years_experience : ℚ
  url : String
deriving Repr, DecidableEq

/-- The `match_detail` record built at main.py:543-553 and appended to
`MATCH_DETAILS_JSON`. -/
structure MatchDetail where
  url : String
  name : String
  total_years_experience : ℚ
  match_score : ℚ
  matching_skills : List String
  missing_skills : List String
  experience_relevance : String
  overall_assessment : String
deriving Repr, DecidableEq

/-- The `matched_profile` record built at main.py:560-562: a copy of
the profile plus `match_score` and the full `match_details`. -/
structure MatchedProfile where
  profile : Profile
  match_score : ℚ
  match_details : MatchResult
deriving Repr, DecidableEq

/-- The five output streams (main.py: `ALL_PROFILES_JSON`,
`FILTERED_PROFILES_JSON`, `MATCH_DETAILS_JSON`,
`MATCHED_PROFILES_JSON`, `FAILED_URLS_LOG`).  The four JSON logs are
`append_to_json` stores; the failure log is a line list. -/
structure Logs where
  all_profiles : Option (List Profile)
  filtered_profiles : Option (List Profile)
  match_details : Option (List MatchDetail)
  matched_profiles : Option (List MatchedProfile)
  failed_urls : List String
deriving Repr, DecidableEq

/-- Mutable state of one run of the loop: the output logs, the
`completed_urls` list, the `filtered_by_experience_count` counter, and
the trace of snapshots persisted by `save_progress`, in call order. -/
structure RunState where
  logs : Logs
  completed_urls : List String
  filtered_count : Nat
  saves : List Snapshot
deriving Repr, DecidableEq

/-- Outcome of `scrape_single_profile` (main.py:483): the returned dict
has `success=False` with an error, or `success=True` with the page text
and a display name. -/
inductive FetchOutcome where
  | fail (error : String)
  | ok (page_text : String) (name : String)
deriving Repr, DecidableEq

/-- Outcome of the `extract_profile_data` call at main.py:497: an
escaped exception (caught by the `except` at main.py:527), or a profile
record. -/
inductive ExtractOutcome where
  | raised (e : String)
  | ok (profile : Profile)
deriving Repr, DecidableEq

/-- Outcome of the `match_profile_to_jd` call at main.py:537: an
escaped exception (caught by the `except` at main.py:568), or the match
result with numeric score (default 0 when absent, per
`match_result.get("match_score", 0)`). -/
inductive MatchOutcome where
  | raised (e : String)
  | ok (result : MatchResult)
deriving Repr, DecidableEq

/-- `completed_urls.append(url); save_progress(...)` — the completion
step every branch of the loop body performs before `continue`
(main.py:488-489, 518-519, 530-531, 573-574). -/
def markCompleted (par : Params) (all_urls : List String) (url : String)
    (st : RunState) : RunState :=
  let completed := st.completed_urls ++ [url]
  { st with
    completed_urls := completed
    saves := st.saves ++ [save_progress par.search_term par.job_description
      par.profile_limit par.min_experience all_urls completed] }

/-- One iteration of the scraping loop (main.py:475-580) for `url`,
given the outcomes of the three external calls:
* fetch failed (main.py:485-490): log the failure, mark completed;
* extraction raised (main.py:527-532): log `"Extraction error: e"`,
  mark completed — the raw-profiles log is untouched;
* extraction ok: stamp the URL (main.py:503), append to the
  raw-profiles log (main.py:511), then the experience gate
  (main.py:515-520): below `min_experience` increments the filter
  counter and marks completed with no match stage; at or above, append
  to the filtered log (main.py:525) and run the match stage:
  * matcher raised (main.py:568-570): log `"Matching error: e"`, then
    mark completed (main.py:572-574);
  * matcher ok: append the match detail (main.py:556), and if
    `match_score >= MATCH_THRESHOLD` also append the matched profile
    (main.py:559-563); then mark completed. -/
def processItem (par : Params) (all_urls : List String) (url : String)
    (fetch : FetchOutcome) (ext : ExtractOutcome) (mtc : MatchOutcome)
    (st : RunState) : RunState :=
  match fetch with
  | .fail err =>
      markCompleted par all_urls url
        { st with logs :=
            { st.logs with
              failed_urls := log_failed_url st.logs.failed_urls url err } }
  | .ok _page_text _name =>
      match ext with
      | .raised e =>
          markCompleted par all_urls url
            { st with logs :=
                { st.logs with
                  failed_urls := log_failed_url st.logs.failed_urls url
                    ("Extraction error: " ++ e) } }
      | .ok p =>
          let profile : Profile := { p with url := url }
          let years := profile.total_years_experience
          let st1 : RunState := { st with logs :=
            { st.logs with
              all_profiles := append_to_json st.logs.all_profiles profile } }
          if years < par.min_experience then
            markCompleted par all_urls url
              { st1 with filtered_count := st1.filtered_count + 1 }
          else
            let st2 : RunState := { st1 with logs :=
              { st1.logs with
                filtered_profiles :=
                  append_to_json st1.logs.filtered_profiles profile } }
            match mtc with
            | .raised e =>
                markCompleted par all_urls url
                  { st2 with logs :=
                      { st2.logs with
                        failed_urls := log_failed_url st2.logs.failed_urls url
                          ("Matching error: " ++ e) } }
            | .ok m =>
                let detail : MatchDetail :=
                  { url := url
                    name := profile.name
                    total_years_experience := years
                    match_score := m.match_score
                    matching_skills := m.matching_skills
                    missing_skills := m.missing_skills
                    experience_relevance := m.experience_relevance
                    overall_assessment := m.overall_assessment }
                let st3 : RunState := { st2 with logs :=
                  { st2.logs with
                    match_details :=
                      append_to_json st2.logs.match_details detail } }
                let st4 : RunState :=
                  if m.match_score ≥ MATCH_THRESHOLD then
                    { st3 with logs :=
                        { st3.logs with
                          matched_profiles :=
                            append_to_json st3.logs.matched_profiles
                              { profile := profile
                                match_score := m.match_score
                                match_details := m } } }
                  else st3
                markCompleted par all_urls url st4

/-- The whole loop `for url in remaining_urls` (main.py:475), with the
per-URL external outcomes supplied by `oracle`. -/
def runBatch (par : Params) (all_urls : List String)
    (oracle : String → FetchOutcome × ExtractOutcome × MatchOutcome) :
    RunState → List String → RunState
  | st, [] => st
  | st, url :: rest =>
      runBatch par all_urls oracle
        (processItem par all_urls url (oracle url).1 (oracle url).2.1
          (oracle url).2.2 st) rest

/-- Fresh empty output logs (no file exists yet). -/
def freshLogs : Logs :=
  { all_profiles := none, filtered_profiles := none, match_details := none,
    matched_profiles := none, failed_urls := [] }

/-- Loop entry state: given logs already on disk and the
`completed_urls` the run starts from (empty for a fresh run, the
snapshot's list on resume), with no snapshot persisted yet by this run. -/
def initState (logs : Logs) (completed : List String) : RunState :=
  { logs := logs, completed_urls := completed, filtered_count := 0,
    saves := [] }

/-- Placeholder snapshot for positional list access (`List.getD`). -/
def defaultSnapshot : Snapshot :=
  save_progress "" "" 0 0 [] []

/-- The snapshot trace persisted by one run of the loop as `main`
performs it: starting from `completed₀` (main.py:382/390) the loop
iterates over `remaining_urls = [url for url in all_urls if url not in
completed_urls]` (main.py:464). -/
def runSaves (par : Params) (logs : Logs) (completed₀ all_urls : List String)
    (oracle : String → FetchOutcome × ExtractOutcome × MatchOutcome) :
    List Snapshot :=
  (runBatch par all_urls oracle (initState logs completed₀)
    (filterNotIn completed₀ all_urls)).saves

/-! ## URL collection (linkedin_searcher.py) -/

/-- The in-order duplicate guard of
`collect_profile_urls_from_page` (linkedin_searcher.py:131-132):
`if base_url not in profile_urls: profile_urls.append(base_url)`. -/
def orderedDedup (xs : List String) : List String :=
  xs.foldl (fun acc u => if u ∈ acc then acc else acc ++ [u]) []

/-- `collect_profile_urls_from_page` (linkedin_searcher.py:99-144) on
the cleaned profile links of one results page: the in-order
accumulation followed by `profile_urls = list(set(profile_urls))`
(linkedin_searcher.py:137).  `pySet` models `list(set(...))`: CPython
iterates a set in hash order (randomized for strings by
`PYTHONHASHSEED`), so the only guarantees are uniqueness and the same
elements. -/
def collect_profile_urls_from_page (pySet : List String → List String)
    (links : List String) : List String :=
  pySet (orderedDedup links)

/-- `collect_all_profile_urls` (linkedin_searcher.py:193-233): extend
`all_urls` with each page's URLs, then `all_urls = list(set(all_urls))`
(linkedin_searcher.py:229). -/
def collect_all_profile_urls (pySet : List String → List String)
    (pages : List (List String)) : List String :=
  pySet (pages.foldl
    (fun acc pg => acc ++ collect_profile_urls_from_page pySet pg) [])

/-- The initial `all_urls` handed to the loop on a fresh run:
collection followed by `all_urls = all_urls[:profile_limit]`
(main.py:461). -/
def initialAllUrls (pySet : List String → List String)
    (pages : List (List String)) (profile_limit : Nat) : List String :=
  (collect_all_profile_urls pySet pages).take profile_limit

/-- An admissible resolution of `list(set(...))` under which iteration
order reverses insertion order: used to exhibit that discovery order is
not preserved. -/
def reverseHashOrder (xs : List String) : List String :=
  (orderedDedup xs).reverse

/-! ## Helper lemmas -/

lemma mem_filterNotIn {c a : List String} {u : String} :
    u ∈ filterNotIn c a ↔ u ∈ a ∧ u ∉ c := by
  simp [filterNotIn]

lemma filterNotIn_self (c : List String) : filterNotIn c c = [] := by
  simp [filterNotIn]

lemma filterNotIn_append (c xs ys : List String) :
    filterNotIn c (xs ++ ys) = filterNotIn c xs ++ filterNotIn c ys := by
  simp [filterNotIn]

lemma filterNotIn_idem (c a : List String) :
    filterNotIn c (filterNotIn c a) = filterNotIn c a := by
  simp [filterNotIn, List.filter_filter]

lemma markCompleted_completed (par : Params) (a : List String) (url : String)
    (st : RunState) :
    (markCompleted par a url st).completed_urls = st.completed_urls ++ [url] := by
  simp [markCompleted]

lemma markCompleted_saves (par : Params) (a : List String) (url : String)
    (st : RunState) :
    (markCompleted par a url st).saves = st.saves ++
      [save_progress par.search_term par.job_description par.profile_limit
        par.min_experience a (st.completed_urls ++ [url])] := by
  simp [markCompleted]

/-- Every branch of the loop body appends exactly `url` to
`completed_urls`. -/
lemma processItem_completed (par : Params) (a : List String) (url : String)
    (f : FetchOutcome) (e : ExtractOutcome) (m : MatchOutcome) (st : RunState) :
    (processItem par a url f e m st).completed_urls =
      st.completed_urls ++ [url] := by
  cases f <;> cases e <;> cases m <;>
    simp [processItem, markCompleted] <;> split_ifs <;> simp [markCompleted]

/-- Every branch of the loop body persists exactly one snapshot, whose
completed list is the previous one extended with `url`. -/
lemma processItem_saves (par : Params) (a : List String) (url : String)
    (f : FetchOutcome) (e : ExtractOutcome) (m : MatchOutcome) (st : RunState) :
    (processItem par a url f e m st).saves = st.saves ++
      [save_progress par.search_term par.job_description par.profile_limit
        par.min_experience a (st.completed_urls ++ [url])] := by
  cases f <;> cases e <;> cases m <;>
    simp [processItem, markCompleted] <;> split_ifs <;> simp [markCompleted]

lemma readAll_append_to_json {α : Type} (file : Option (List α)) (r : α) :
    readAll (append_to_json file r) = readAll file ++ [r] := by
  simp [readAll, append_to_json, save_to_json, load_json_file]

lemma readAll_appendN {α : Type} :
    ∀ (records : List α) (file : Option (List α)),
      readAll (appendN file records) = readAll file ++ records
  | [], file => by simp [appendN, readAll]
  | r :: rs, file => by
      show readAll (appendN (append_to_json file r) rs) = _
      rw [readAll_appendN rs, readAll_append_to_json]
      simp

lemma orderedDedup_step_nodup :
    ∀ (xs acc : List String), acc.Nodup →
      (xs.foldl (fun acc u => if u ∈ acc then acc else acc ++ [u])
        acc).Nodup
  | [], _, h => h
  | x :: xs, acc, h => by
      apply orderedDedup_step_nodup xs
      by_cases hx : x ∈ acc
      · simpa [hx] using h
      · simp [hx, List.nodup_append, h]

lemma orderedDedup_step_mem :
    ∀ (xs acc : List String) (v : String),
      v ∈ xs.foldl (fun acc u => if u ∈ acc then acc else acc ++ [u])
        acc ↔ v ∈ acc ∨ v ∈ xs
  | [], acc, v => by simp
  | x :: xs, acc, v => by
      rw [List.foldl_cons, orderedDedup_step_mem xs]
      by_cases hx : x ∈ acc
      · simp only [if_pos hx, List.mem_cons]
        constructor
        · exact fun h => h.imp_right Or.inr
        · rintro (h | rfl | h)
          · exact Or.inl h
          · exact Or.inl hx
          · exact Or.inr h
      · simp only [if_neg hx, List.mem_append, List.mem_singleton,
          List.mem_cons]
        tauto

lemma orderedDedup_nodup (xs : List String) : (orderedDedup xs).Nodup :=
  orderedDedup_step_nodup xs [] List.nodup_nil

lemma mem_orderedDedup {xs : List String} {v : String} :
    v ∈ orderedDedup xs ↔ v ∈ xs := by
  rw [orderedDedup, orderedDedup_step_mem]
  simp

/-- `reverseHashOrder` is an admissible `list(set(...))` behaviour:
unique elements, same membership. -/
lemma reverseHashOrder_admissible :
    ∀ xs : List String, (reverseHashOrder xs).Nodup ∧
      ∀ u, u ∈ reverseHashOrder xs ↔ u ∈ xs := by
  intro xs
  refine ⟨List.nodup_reverse.mpr (orderedDedup_nodup xs), fun u => ?_⟩
  rw [reverseHashOrder, List.mem_reverse, mem_orderedDedup]

/-- `orderedDedup` itself is also an admissible `list(set(...))`
behaviour (the hash order that happens to match insertion order). -/
lemma orderedDedup_admissible :
    ∀ xs : List String, (orderedDedup xs).Nodup ∧
      ∀ u, u ∈ orderedDedup xs ↔ u ∈ xs :=
  fun xs => ⟨orderedDedup_nodup xs, fun _ => mem_orderedDedup⟩

lemma extract_returns_record (strFloat : String → Option ℚ)
    (jsonLoads : String → Option (List (String × PyVal))) (s : String) :
    ∃ r, extract_profile_data strFloat jsonLoads (.ok s) = .ok r := by
  rcases h : jsonLoads s with _ | obj
  · exact ⟨⟨[], 0, some s⟩, by simp [extract_profile_data, h]⟩
  · rcases h2 : obj.lookup "total_years_experience" with _ | v
    · exact ⟨⟨obj, 0, none⟩, by simp [extract_profile_data, h, h2]⟩
    · rcases h3 : pyFloat strFloat v with _ | q
      · exact ⟨⟨obj, 0, none⟩, by simp [extract_profile_data, h, h2, h3]⟩
      · exact ⟨⟨obj, q, none⟩, by simp [extract_profile_data, h, h2, h3]⟩

lemma mem_foldl_append_pages (f : List String → List String) :
    ∀ (pages : List (List String)) (acc : List String) (u : String),
      u ∈ pages.foldl (fun acc pg => acc ++ f pg) acc ↔
        u ∈ acc ∨ ∃ pg ∈ pages, u ∈ f pg
  | [], acc, u => by simp
  | pg :: pages, acc, u => by
      rw [List.foldl_cons, mem_foldl_append_pages f pages]
      simp [List.mem_append, or_assoc]

lemma runBatch_completed (par : Params) (a : List String)
    (oracle : String → FetchOutcome × ExtractOutcome × MatchOutcome) :
    ∀ (rem : List String) (st : RunState),
      (runBatch par a oracle st rem).completed_urls =
        st.completed_urls ++ rem
  | [], st => by simp [runBatch]
  | url :: rest, st => by
      rw [runBatch, runBatch_completed par a oracle rest,
        processItem_completed]
      simp

/-- Closed form of the snapshot trace of a run: the `k`-th persisted
snapshot records the starting completed list extended by the first
`k+1` processed URLs. -/
lemma runBatch_saves (par : Params) (a : List String)
    (oracle : String → FetchOutcome × ExtractOutcome × MatchOutcome) :
    ∀ (rem : List String) (st : RunState),
      (runBatch par a oracle st rem).saves = st.saves ++
        (List.range rem.length).map (fun k =>
          save_progress par.search_term par.job_description par.profile_limit
            par.min_experience a (st.completed_urls ++ rem.take (k + 1)))
  | [], st => by simp [runBatch]
  | url :: rest, st => by
      rw [runBatch, runBatch_saves par a oracle rest, processItem_saves,
        processItem_completed]
      simp [List.range_succ_eq_map, List.map_map, Function.comp]

/-! ## Claims -/

/-- C6, counterexample: on corrupt storage (progress file exists but is
not parseable JSON) `load_progress` does NOT fail silently to absent —
`json.load` raises and the exception escapes to the caller, refuting
"never raises". -/
theorem C6_corrupt_raises_counterexample :
    load_progress (FileState.present none) =
      PyResult.raised "json.decoder.JSONDecodeError" := rfl

/-- C6 (amended): `load_progress` returns the persisted snapshot when
the progress file exists and parses, and absent (`None`) when no file
exists; but on corrupt storage it raises a JSON decode error to the
caller instead of failing silently to absent. -/
theorem C6_load_progress_behaviour :
    load_progress FileState.absent = PyResult.ok none ∧
    (∀ s : Snapshot,
      load_progress (FileState.present (some s)) = PyResult.ok (some s)) ∧
    load_progress (FileState.present none) ≠ PyResult.ok none ∧
    (∃ msg, load_progress (FileState.present none) = PyResult.raised msg) := by
  refine ⟨rfl, fun s => rfl, by simp [load_progress], ⟨_, rfl⟩⟩

/-- C7: `append_to_json` reads the existing ordered array from the
backing store (empty when absent), appends the new record, and writes
the whole array back — so one append extends `readAll` by exactly the
new record at the end (earlier records keep their positions), and after
`N` appends starting from an absent store `readAll` returns exactly
those `N` records in call order. -/
theorem C7_append_log (α : Type) :
    (∀ (file : Option (List α)) (r : α),
      readAll (append_to_json file r) = readAll file ++ [r]) ∧
    (∀ records : List α,
      readAll (appendN (none : Option (List α)) records) = records ∧
      (readAll (appendN (none : Option (List α)) records)).length =
        records.length) := by
  refine ⟨readAll_append_to_json, fun records => ?_⟩
  rw [readAll_appendN]
  simp [readAll, load_json_file]

/-- C8, counterexample: `crew.kickoff()` (main.py:257) sits outside the
`try` of `extract_profile_data`, so when the model call itself raises
(e.g. an API connection error) the exception propagates to the
pipeline, refuting "extraction never propagates an exception". -/
theorem C8_kickoff_raise_counterexample :
    extract_profile_data (fun _ => none) (fun _ => none)
      (PyResult.raised "APIConnectionError") =
    PyResult.raised "APIConnectionError" := rfl

/-- C8 (amended): whenever the model call itself returns output,
extraction never raises: for every returned string — including
malformed output that cannot be parsed as JSON — a record with a
numeric `total_years_experience` is produced; on parse failure it
degrades to `total_years_experience = 0` with the raw output attached,
and a parseable object lacking the field also gets `0`.  Only an
exception of the model call itself propagates. -/
theorem C8_extract_degrades (strFloat : String → Option ℚ)
    (jsonLoads : String → Option (List (String × PyVal))) (s : String) :
    (∃ r, extract_profile_data strFloat jsonLoads (.ok s) = .ok r) ∧
    (jsonLoads s = none →
      extract_profile_data strFloat jsonLoads (.ok s) =
        .ok ⟨[], 0, some s⟩) ∧
    (∀ obj, jsonLoads s = some obj →
      obj.lookup "total_years_experience" = none →
      extract_profile_data strFloat jsonLoads (.ok s) = .ok ⟨obj, 0, none⟩) := by
  refine ⟨extract_returns_record strFloat jsonLoads s, ?_, ?_⟩
  · intro h
    simp [extract_profile_data, h]
  · intro obj h h2
    simp [extract_profile_data, h, h2]

/-- C8 witness: on output that is not JSON at all, extraction returns
the degraded zero-experience record with the raw output attached. -/
theorem C8_extract_degrades_witness :
    extract_profile_data (fun _ => none) (fun _ => none)
      (PyResult.ok "not json") = PyResult.ok ⟨[], 0, some "not json"⟩ :=
  (C8_extract_degrades (fun _ => none) (fun _ => none) "not json").2.1 rfl

/-- C9, counterexample: `crew.kickoff()` (main.py:334) sits outside the
`try` of `match_profile_to_jd`, so when the model call itself raises the
exception propagates to the pipeline, refuting "matching never
raises". -/
theorem C9_kickoff_raise_counterexample :
    match_profile_to_jd (fun _ => none) (PyResult.raised "APIError") =
    PyResult.raised "APIError" := rfl

/-- C9 (amended): whenever the model call itself returns output,
matching never raises: every returned string yields a match record, and
when the output cannot be parsed it degrades to `match_score = 0`,
empty skill lists, and the error note "Error parsing match result"
(with the raw output as the overall assessment).  Only an exception of
the model call itself propagates. -/
theorem C9_match_degrades (parseMatch : String → Option MatchResult)
    (s : String) :
    (∃ m, match_profile_to_jd parseMatch (.ok s) = .ok m) ∧
    (parseMatch s = none →
      match_profile_to_jd parseMatch (.ok s) =
        .ok ⟨0, [], [], "Error parsing match result", s⟩) := by
  constructor
  · rcases h : parseMatch s with _ | m
    · exact ⟨⟨0, [], [], "Error parsing match result", s⟩,
        by simp [match_profile_to_jd, h]⟩
    · exact ⟨m, by simp [match_profile_to_jd, h]⟩
  · intro h
    simp [match_profile_to_jd, h]

/-- C9 witness: on unparseable matcher output, the degraded zero-score
record with the error note is returned. -/
theorem C9_match_degrades_witness :
    match_profile_to_jd (fun _ => none) (PyResult.ok "garbage") =
    PyResult.ok ⟨0, [], [], "Error parsing match result", "garbage"⟩ :=
  (C9_match_degrades (fun _ => none) "garbage").2 rfl

/-- C1: resuming from a persisted snapshot reconstructs `all_urls` as
`completed_urls ++ remaining_urls` (completed first, main.py:381), and
the run then processes exactly the URLs of the reconstructed list not
in `completed_urls`, in list order (main.py:464,475), never
reprocessing a completed URL; in particular, for a snapshot of a run
over `[u1,u2,u3,u4]` with `u1,u3` completed, exactly `[u2, u4]` is
processed in that order. -/
theorem C1_resume_processes_remaining_in_order (st jd : String) (pl : Nat)
    (me : ℚ) (all_urls completed : List String) :
    ((save_progress st jd pl me all_urls completed).completed_urls ++
        (save_progress st jd pl me all_urls completed).remaining_urls =
      completed ++ filterNotIn completed all_urls) ∧
    (filterNotIn completed (completed ++ filterNotIn completed all_urls) =
      filterNotIn completed all_urls) ∧
    (∀ u ∈ filterNotIn completed all_urls, u ∉ completed) ∧
    (∀ (logs : Logs)
        (oracle : String → FetchOutcome × ExtractOutcome × MatchOutcome),
      (runBatch ⟨st, jd, pl, me⟩
          (completed ++ filterNotIn completed all_urls) oracle
          (initState logs completed)
          (filterNotIn completed
            (completed ++ filterNotIn completed all_urls))).completed_urls =
        completed ++ filterNotIn completed all_urls) ∧
    (filterNotIn ["u1", "u3"]
        (["u1", "u3"] ++ filterNotIn ["u1", "u3"] ["u1", "u2", "u3", "u4"]) =
      ["u2", "u4"]) := by
  have key : ∀ c a : List String,
      filterNotIn c (c ++ filterNotIn c a) = filterNotIn c a := by
    intro c a
    rw [filterNotIn_append, filterNotIn_self, filterNotIn_idem,
      List.nil_append]
  refine ⟨rfl, key completed all_urls, ?_, ?_, by decide⟩
  · intro u hu
    exact (mem_filterNotIn.mp hu).2
  · intro logs oracle
    rw [runBatch_completed, key completed all_urls]
    rfl

/-- C10, counterexample: `list(set(all_urls))`
(linkedin_searcher.py:229) iterates the set in hash order, which for
strings is randomized per process; under the admissible hash order
modelled by `reverseHashOrder` (see `reverseHashOrder_admissible`), the
result over discovery pages `[["u1"], ["u2"]]` is deduplicated and has
the same elements but is NOT in discovery order, refuting "discovery
order preserved". -/
theorem C10_order_not_preserved_counterexample :
    (initialAllUrls reverseHashOrder [["u1"], ["u2"]] 10).Perm
      ["u1", "u2"] ∧
    (initialAllUrls reverseHashOrder [["u1"], ["u2"]] 10).Nodup ∧
    initialAllUrls reverseHashOrder [["u1"], ["u2"]] 10 ≠ ["u1", "u2"] := by
  decide

/-- C10 (amended): for every admissible behaviour of `list(set(...))`
(unique elements, same membership), the initial `all_urls` handed to
the pipeline is deduplicated (no two work items share a URL), contains
only discovered URLs, and is truncated to at most `profile_limit`
entries before processing starts; the order, however, is arbitrary
(hash order), not necessarily discovery order. -/
theorem C10_dedup_truncate (pySet : List String → List String)
    (hset : ∀ xs, (pySet xs).Nodup ∧ ∀ u, u ∈ pySet xs ↔ u ∈ xs)
    (pages : List (List String)) (profile_limit : Nat) :
    (initialAllUrls pySet pages profile_limit).Nodup ∧
    (initialAllUrls pySet pages profile_limit).length ≤ profile_limit ∧
    ∀ u ∈ initialAllUrls pySet pages profile_limit,
      ∃ pg ∈ pages, u ∈ pg := by
  refine ⟨?_, ?_, ?_⟩
  · exact List.Sublist.nodup (List.take_sublist _ _) (hset _).1
  · exact List.length_take_le _ _
  · intro u hu
    have hu' : u ∈ collect_all_profile_urls pySet pages :=
      List.take_subset _ _ hu
    rw [collect_all_profile_urls, (hset _).2,
      mem_foldl_append_pages] at hu'
    rcases hu' with h | ⟨pg, hpg, hmem⟩
    · simp at h
    · refine ⟨pg, hpg, ?_⟩
      rw [collect_profile_urls_from_page, (hset _).2,
        mem_orderedDedup] at hmem
      exact hmem

/-- C10 witness: under the insertion-order hash model, two discovered
URLs truncated to limit 1 give a single-element duplicate-free list of
discovered URLs. -/
theorem C10_dedup_truncate_witness :
    (initialAllUrls orderedDedup [["a", "b"]] 1).Nodup ∧
    (initialAllUrls orderedDedup [["a", "b"]] 1).length ≤ 1 ∧
    ∀ u ∈ initialAllUrls orderedDedup [["a", "b"]] 1,
      ∃ pg ∈ [["a", "b"]], u ∈ pg :=
  C10_dedup_truncate orderedDedup orderedDedup_admissible [["a", "b"]] 1

/-- C2: across the snapshots persisted by `save_progress` during one
run (in call order), `completed_urls` grows monotonically — the earlier
snapshot's `completed_urls` is a prefix of the later one's (so it is a
subset, and no element is ever removed or reordered) — and, provided
the starting completed list only holds URLs of the batch (true both for
a fresh run, where it is empty, and on resume, where `all_urls` is
reconstructed as `completed ++ remaining`), every persisted
`completed_urls` is a subset of `all_urls`. -/
theorem C2_completed_urls_monotonic (par : Params) (logs : Logs)
    (completed₀ all_urls : List String)
    (oracle : String → FetchOutcome × ExtractOutcome × MatchOutcome)
    (hsub : ∀ u ∈ completed₀, u ∈ all_urls) (i j : Nat) (hij : i ≤ j)
    (hj : j < (runSaves par logs completed₀ all_urls oracle).length) :
    (∃ t, ((runSaves par logs completed₀ all_urls oracle).getD j
        defaultSnapshot).completed_urls =
      ((runSaves par logs completed₀ all_urls oracle).getD i
        defaultSnapshot).completed_urls ++ t) ∧
    ∀ snap ∈ runSaves par logs completed₀ all_urls oracle,
      ∀ u ∈ snap.completed_urls, u ∈ all_urls := by
  have hsaves : runSaves par logs completed₀ all_urls oracle =
      (List.range (filterNotIn completed₀ all_urls).length).map (fun k =>
        save_progress par.search_term par.job_description par.profile_limit
          par.min_experience all_urls
          (completed₀ ++ (filterNotIn completed₀ all_urls).take (k + 1))) := by
    rw [runSaves, runBatch_saves]
    simp [initState]
  constructor
  · rw [hsaves] at hj ⊢
    have hjlen : j < (filterNotIn completed₀ all_urls).length := by
      simpa using hj
    have hilen : i < (filterNotIn completed₀ all_urls).length :=
      lt_of_le_of_lt hij hjlen
    rw [List.getD_eq_getElem _ _ (by simpa using hjlen),
      List.getD_eq_getElem _ _ (by simpa using hilen)]
    refine ⟨((filterNotIn completed₀ all_urls).take (j + 1)).drop (i + 1), ?_⟩
    simp only [List.getElem_map, List.getElem_range, save_progress]
    have h1 : (filterNotIn completed₀ all_urls).take (j + 1) =
        ((filterNotIn completed₀ all_urls).take (j + 1)).take (i + 1) ++
          ((filterNotIn completed₀ all_urls).take (j + 1)).drop (i + 1) :=
      (List.take_append_drop _ _).symm
    rw [List.take_take, min_eq_left (by omega)] at h1
    conv_lhs => rw [h1]
    rw [List.append_assoc]
  · intro snap hsnap u hu
    rw [hsaves] at hsnap
    simp only [List.mem_map, List.mem_range] at hsnap
    obtain ⟨k, _, rfl⟩ := hsnap
    simp only [save_progress] at hu
    rcases List.mem_append.mp hu with hu | hu
    · exact hsub u hu
    · exact (mem_filterNotIn.mp (List.take_subset _ _ hu)).1

/-- C2 witness: a concrete two-URL fresh run, comparing the first and
second persisted snapshots. -/
theorem C2_completed_urls_monotonic_witness :
    (∃ t, ((runSaves ⟨"t", "jd", 2, 0⟩ freshLogs [] ["u1", "u2"]
        (fun _ => (.fail "err", .raised "e", .raised "m"))).getD 1
        defaultSnapshot).completed_urls =
      ((runSaves ⟨"t", "jd", 2, 0⟩ freshLogs [] ["u1", "u2"]
        (fun _ => (.fail "err", .raised "e", .raised "m"))).getD 0
        defaultSnapshot).completed_urls ++ t) ∧
    ∀ snap ∈ runSaves ⟨"t", "jd", 2, 0⟩ freshLogs [] ["u1", "u2"]
        (fun _ => (.fail "err", .raised "e", .raised "m")),
      ∀ u ∈ snap.completed_urls, u ∈ ["u1", "u2"] :=
  C2_completed_urls_monotonic ⟨"t", "jd", 2, 0⟩ freshLogs [] ["u1", "u2"]
    (fun _ => (.fail "err", .raised "e", .raised "m")) (by simp) 0 1
    (by omega) (by decide)

/-- C3, counterexample: a processed profile with
`total_years_experience = 5 ≥ min_experience = 0` for which the match
call raises (caught at main.py:568) produces NO match record — the
match-details log stays empty — refuting "exactly one MatchRecord is
appended" for every above-threshold processed profile. -/
theorem C3_match_raise_counterexample :
    (0 : ℚ) ≤ (5 : ℚ) ∧
    readAll (processItem ⟨"t", "jd", 1, 0⟩ ["u1"] "u1"
      (FetchOutcome.ok "text" "A") (ExtractOutcome.ok ⟨"A", 5, ""⟩)
      (MatchOutcome.raised "APIError")
      (initState freshLogs [])).logs.match_details = [] := by
  constructor
  · norm_num
  · rfl

/-- C3 (amended): for every processed profile below the batch's
`min_experience`, no MatchRecord is produced (match-details and
matched-profiles logs are untouched), the filtered-count tally is
incremented, and the item is marked completed; for every processed
profile at or above `min_experience` whose match stage returns, exactly
one MatchRecord is appended to the match-details log (if the match
stage raises, a failure is logged and no MatchRecord is appended). -/
theorem C3_filter_gate (par : Params) (a : List String)
    (url text nm : String) (p : Profile) (st : RunState) :
    (∀ mtc : MatchOutcome,
      p.total_years_experience < par.min_experience →
      (processItem par a url (.ok text nm) (.ok p) mtc
          st).logs.match_details = st.logs.match_details ∧
      (processItem par a url (.ok text nm) (.ok p) mtc
          st).logs.matched_profiles = st.logs.matched_profiles ∧
      (processItem par a url (.ok text nm) (.ok p) mtc
          st).filtered_count = st.filtered_count + 1 ∧
      (processItem par a url (.ok text nm) (.ok p) mtc
          st).completed_urls = st.completed_urls ++ [url]) ∧
    (∀ m : MatchResult,
      par.min_experience ≤ p.total_years_experience →
      readAll (processItem par a url (.ok text nm) (.ok p) (.ok m)
          st).logs.match_details =
        readAll st.logs.match_details ++
          [⟨url, p.name, p.total_years_experience, m.match_score,
            m.matching_skills, m.missing_skills, m.experience_relevance,
            m.overall_assessment⟩]) := by
  constructor
  · intro mtc h
    refine ⟨?_, ?_, ?_, ?_⟩ <;>
      simp [processItem, markCompleted, h]
  · intro m h
    have h' : ¬p.total_years_experience < par.min_experience := not_lt.mpr h
    simp only [processItem, h', if_false]
    split_ifs <;>
      simp [markCompleted, readAll_append_to_json]

/-- C3 witness: a concrete below-threshold profile (3 < 5 years) is
filtered — no match record, tally incremented, item completed — and a
concrete at-threshold profile (5 ≥ 5) with a returning matcher gets
exactly one match record. -/
theorem C3_filter_gate_witness :
    ((processItem ⟨"t", "jd", 1, 5⟩ ["u1"] "u1" (FetchOutcome.ok "txt" "A")
        (ExtractOutcome.ok ⟨"A", 3, ""⟩) (MatchOutcome.raised "m")
        (initState freshLogs [])).logs.match_details =
      (initState freshLogs []).logs.match_details ∧
     (processItem ⟨"t", "jd", 1, 5⟩ ["u1"] "u1" (FetchOutcome.ok "txt" "A")
        (ExtractOutcome.ok ⟨"A", 3, ""⟩) (MatchOutcome.raised "m")
        (initState freshLogs [])).logs.matched_profiles =
      (initState freshLogs []).logs.matched_profiles ∧
     (processItem ⟨"t", "jd", 1, 5⟩ ["u1"] "u1" (FetchOutcome.ok "txt" "A")
        (ExtractOutcome.ok ⟨"A", 3, ""⟩) (MatchOutcome.raised "m")
        (initState freshLogs [])).filtered_count =
      (initState freshLogs []).filtered_count + 1 ∧
     (processItem ⟨"t", "jd", 1, 5⟩ ["u1"] "u1" (FetchOutcome.ok "txt" "A")
        (ExtractOutcome.ok ⟨"A", 3, ""⟩) (MatchOutcome.raised "m")
        (initState freshLogs [])).completed_urls =
      (initState freshLogs []).completed_urls ++ ["u1"]) ∧
    readAll (processItem ⟨"t", "jd", 1, 5⟩ ["u1"] "u1"
        (FetchOutcome.ok "txt" "A") (ExtractOutcome.ok ⟨"A", 5, ""⟩)
        (MatchOutcome.ok ⟨8, ["s"], [], "rel", "ok"⟩)
        (initState freshLogs [])).logs.match_details =
      readAll (initState freshLogs []).logs.match_details ++
        [⟨"u1", "A", 5, 8, ["s"], [], "rel", "ok"⟩] :=
  ⟨(C3_filter_gate ⟨"t", "jd", 1, 5⟩ ["u1"] "u1" "txt" "A" ⟨"A", 3, ""⟩
      (initState freshLogs [])).1 (MatchOutcome.raised "m") (by norm_num),
   (C3_filter_gate ⟨"t", "jd", 1, 5⟩ ["u1"] "u1" "txt" "A" ⟨"A", 5, ""⟩
      (initState freshLogs [])).2 ⟨8, ["s"], [], "rel", "ok"⟩ (by norm_num)⟩

/-- C4: for a processed profile that passed the experience filter, a
match record with `match_score ≥ MATCH_THRESHOLD` (7 by default on the
0-10 scale, `match_score >= MATCH_THRESHOLD` at main.py:559) appends
the profile — carrying the match score and the full match detail — to
the matched-profiles log, while a score strictly below the threshold
leaves that log unchanged; equality counts as a match. -/
theorem C4_threshold_gate (par : Params) (a : List String)
    (url text nm : String) (p : Profile) (m : MatchResult) (st : RunState)
    (hexp : par.min_experience ≤ p.total_years_experience) :
    (MATCH_THRESHOLD ≤ m.match_score →
      readAll (processItem par a url (.ok text nm) (.ok p) (.ok m)
          st).logs.matched_profiles =
        readAll st.logs.matched_profiles ++
          [⟨⟨p.name, p.total_years_experience, url⟩, m.match_score, m⟩]) ∧
    (m.match_score < MATCH_THRESHOLD →
      (processItem par a url (.ok text nm) (.ok p) (.ok m)
          st).logs.matched_profiles = st.logs.matched_profiles) := by
  have h' : ¬p.total_years_experience < par.min_experience := not_lt.mpr hexp
  constructor
  · intro hscore
    simp [processItem, h', markCompleted, readAll_append_to_json,
      ge_iff_le, hscore]
  · intro hscore
    have h2 : ¬MATCH_THRESHOLD ≤ m.match_score := not_le.mpr hscore
    simp [processItem, h', markCompleted, ge_iff_le, h2]

/-- C4 witness: with the default threshold 7, a score of exactly 7 is
appended to the matched-profiles log and a score of 6.99 is not. -/
theorem C4_threshold_gate_witness :
    readAll (processItem ⟨"t", "jd", 1, 0⟩ ["u1"] "u1"
        (FetchOutcome.ok "txt" "A") (ExtractOutcome.ok ⟨"A", 8, ""⟩)
        (MatchOutcome.ok ⟨7, [], [], "", ""⟩)
        (initState freshLogs [])).logs.matched_profiles =
      readAll (initState freshLogs []).logs.matched_profiles ++
        [⟨⟨"A", 8, "u1"⟩, 7, ⟨7, [], [], "", ""⟩⟩] ∧
    (processItem ⟨"t", "jd", 1, 0⟩ ["u1"] "u1" (FetchOutcome.ok "txt" "A")
        (ExtractOutcome.ok ⟨"A", 8, ""⟩)
        (MatchOutcome.ok ⟨(6.99 : ℚ), [], [], "", ""⟩)
        (initState freshLogs [])).logs.matched_profiles =
      (initState freshLogs []).logs.matched_profiles :=
  ⟨(C4_threshold_gate ⟨"t", "jd", 1, 0⟩ ["u1"] "u1" "txt" "A" ⟨"A", 8, ""⟩
      ⟨7, [], [], "", ""⟩ (initState freshLogs []) (by norm_num)).1
      (by norm_num [MATCH_THRESHOLD]),
   (C4_threshold_gate ⟨"t", "jd", 1, 0⟩ ["u1"] "u1" "txt" "A" ⟨"A", 8, ""⟩
      ⟨(6.99 : ℚ), [], [], "", ""⟩ (initState freshLogs [])
      (by norm_num)).2 (by norm_num [MATCH_THRESHOLD])⟩

/-- C5: when the extraction call raises for a work item (the `except`
at main.py:527), a failure line `"<url> | Error: Extraction error:
<e>"` is recorded, the item is marked completed, the state is persisted
(one more snapshot), the raw-profiles log is NOT written for that item,
and the batch continues with the next item. -/
theorem C5_extraction_failure_isolated (par : Params) (a : List String)
    (url text nm e : String) (mtc : MatchOutcome) (st : RunState)
    (oracle : String → FetchOutcome × ExtractOutcome × MatchOutcome)
    (rest : List String)
    (hor : oracle url = (.ok text nm, .raised e, mtc)) :
    (processItem par a url (.ok text nm) (.raised e) mtc
        st).logs.all_profiles = st.logs.all_profiles ∧
    (processItem par a url (.ok text nm) (.raised e) mtc
        st).logs.failed_urls =
      log_failed_url st.logs.failed_urls url ("Extraction error: " ++ e) ∧
    (processItem par a url (.ok text nm) (.raised e) mtc
        st).completed_urls = st.completed_urls ++ [url] ∧
    (processItem par a url (.ok text nm) (.raised e) mtc
        st).saves = st.saves ++
      [save_progress par.search_term par.job_description par.profile_limit
        par.min_experience a (st.completed_urls ++ [url])] ∧
    runBatch par a oracle st (url :: rest) =
      runBatch par a oracle
        (processItem par a url (.ok text nm) (.raised e) mtc st) rest := by
  refine ⟨?_, ?_, ?_, ?_, ?_⟩
  · simp [processItem, markCompleted]
  · simp [processItem, markCompleted]
  · exact processItem_completed par a url _ _ _ st
  · exact processItem_saves par a url _ _ _ st
  · rw [runBatch, hor]

/-- C5 witness: a concrete item whose extraction raises is logged,
completed and persisted, its raw profile is not written, and the run
proceeds to the rest of the batch. -/
theorem C5_extraction_failure_isolated_witness :
    (processItem ⟨"t", "jd", 2, 0⟩ ["u1", "u2"] "u1"
        (FetchOutcome.ok "txt" "A") (ExtractOutcome.raised "boom")
        (MatchOutcome.raised "m")
        (initState freshLogs [])).logs.all_profiles =
      (initState freshLogs []).logs.all_profiles ∧
    (processItem ⟨"t", "jd", 2, 0⟩ ["u1", "u2"] "u1"
        (FetchOutcome.ok "txt" "A") (ExtractOutcome.raised "boom")
        (MatchOutcome.raised "m")
        (initState freshLogs [])).logs.failed_urls =
      log_failed_url (initState freshLogs []).logs.failed_urls "u1"
        ("Extraction error: " ++ "boom") ∧
    (processItem ⟨"t", "jd", 2, 0⟩ ["u1", "u2"] "u1"
        (FetchOutcome.ok "txt" "A") (ExtractOutcome.raised "boom")
        (MatchOutcome.raised "m")
        (initState freshLogs [])).completed_urls =
      (initState freshLogs []).completed_urls ++ ["u1"] ∧
    (processItem ⟨"t", "jd", 2, 0⟩ ["u1", "u2"] "u1"
        (FetchOutcome.ok "txt" "A") (ExtractOutcome.raised "boom")
        (MatchOutcome.raised "m")
        (initState freshLogs [])).saves =
      (initState freshLogs []).saves ++
        [save_progress "t" "jd" 2 0 ["u1", "u2"]
          ((initState freshLogs []).completed_urls ++ ["u1"])] ∧
    runBatch ⟨"t", "jd", 2, 0⟩ ["u1", "u2"]
        (fun _ => (FetchOutcome.ok "txt" "A", ExtractOutcome.raised "boom",
          MatchOutcome.raised "m"))
        (initState freshLogs []) ["u1", "u2"] =
      runBatch ⟨"t", "jd", 2, 0⟩ ["u1", "u2"]
        (fun _ => (FetchOutcome.ok "txt" "A", ExtractOutcome.raised "boom",
          MatchOutcome.raised "m"))
        (processItem ⟨"t", "jd", 2, 0⟩ ["u1", "u2"] "u1"
          (FetchOutcome.ok "txt" "A") (ExtractOutcome.raised "boom")
          (MatchOutcome.raised "m") (initState freshLogs [])) ["u2"] :=
  C5_extraction_failure_isolated ⟨"t", "jd", 2, 0⟩ ["u1", "u2"] "u1" "txt"
    "A" "boom" (MatchOutcome.raised "m") (initState freshLogs [])
    (fun _ => (FetchOutcome.ok "txt" "A", ExtractOutcome.raised "boom",
      MatchOutcome.raised "m")) ["u2"] rfl

end RecruitIQ
